import Mathlib

/-
  Verification of the PrizePop ticket/prize reservation core.

  The embedding models the TicketCode table (prisma migration) as a list of
  rows, wall-clock instants as natural numbers (milliseconds), and each Remix
  action of the redemption flow as a pure function from request inputs and a
  store snapshot to a structured response plus the mutated store.  JSON web
  tokens are modelled abstractly: a token is either well-signed and
  well-formed with a payload and an expiry instant, or carries a bad
  signature, or is malformed; jwt.verify accepts only the first kind before
  expiry and rejects the rest uniformly.
-/

namespace PrizePop

/-- One row of the TicketCode table.  Columns follow the prisma schema as
used by the routes: nullable columns are Option, timestamps are naturals
(milliseconds since epoch). -/
structure Ticket where
  id : String
  code : String
  type : String
  status : String
  email : Option String
  usedAt : Option Nat
  usedOrderId : Option String
  reservedPrizeId : Option String
  reservationExpiresAt : Option Nat
  expiresAt : Option Nat
  verifyKey : Option String
  deriving DecidableEq, Repr

/-- The ticket store: the rows of the TicketCode table. -/
abbrev Store := List Ticket

/-- One entry of the reservedPrizes snapshot embedded in a session token. -/
structure ReservedPrize where
  prizeId : String
  status : String
  reservationExpiresAt : Nat
  deriving DecidableEq, Repr

/-- The claims carried by a session token (TokenPayload in the routes). -/
structure TokenPayload where
  ticketId : String
  email : String
  ticketType : Option String
  expireTime : Option Nat
  reservedPrizes : List ReservedPrize
  deriving DecidableEq, Repr

/-- Abstract model of a JWT presented by a client: a well-formed token
correctly signed with the server secret, carrying a payload and an expiry
instant, or a token whose signature does not match the secret, or a
malformed token. -/
inductive Token where
  | valid (payload : TokenPayload) (tokenExp : Nat)
  | badSignature
  | malformed
  deriving DecidableEq, Repr

/-- jwt.verify: returns the payload only for a well-signed, well-formed,
unexpired token; every failure (signature mismatch, malformed input,
expiry) is the same rejection, none. -/
def jwtVerify : Token → Nat → Option TokenPayload
  | Token.valid p e, now => if now < e then some p else none
  | Token.badSignature, _ => none
  | Token.malformed, _ => none

/-- JS truthiness of a nullable string: null and the empty string are
falsy. -/
def truthy : Option String → Bool
  | some s => !(s == "")
  | none => false

/-- Prisma filter reservationExpiresAt gt now: a null column never
matches. -/
def gtNow : Option Nat → Nat → Bool
  | some e, now => now < e
  | none, _ => false

/-- Prisma filter reservationExpiresAt lt now: a null column never
matches. -/
def ltNow : Option Nat → Nat → Bool
  | some e, now => e < now
  | none, _ => false

/-- prisma.ticketCode.findUnique by id. -/
def findById (s : Store) (tid : String) : Option Ticket :=
  s.find? fun t => t.id == tid

/-- prisma.ticketCode.findUnique by code. -/
def findByCode (s : Store) (c : String) : Option Ticket :=
  s.find? fun t => t.code == c

/-- prisma.ticketCode.update where id: applies the mutation to the row with
the given id. -/
def updateTicket (s : Store) (tid : String) (f : Ticket → Ticket) : Store :=
  s.map fun t => if t.id = tid then f t else t

/-- The expired-reservation sweep of the add-to-cart action
(email.server.ts, updateMany): every row whose status is not DISABLED and
whose reservationExpiresAt is strictly in the past loses reservedPrizeId
and reservationExpiresAt. -/
def sweepExpired (s : Store) (now : Nat) : Store :=
  s.map fun t =>
    if t.status != "DISABLED" && ltNow t.reservationExpiresAt now then
      { t with reservedPrizeId := none, reservationExpiresAt := none }
    else t

/-- buildReservedPrizesFromTicket: the reservation snapshot placed in a
reissued token — present only when both reservation columns are set (a JS
truthiness check, so an empty-string prize id is skipped), with no expiry
filtering. -/
def buildReservedPrizesFromTicket (t : Ticket) : List ReservedPrize :=
  match t.reservedPrizeId, t.reservationExpiresAt with
  | some p, some e => if p == "" then [] else [⟨p, t.status, e⟩]
  | _, _ => []

/-- signToken as used by the routes that reissue a session token: same
identity and timing claims as the presented payload, with a fresh
reservation snapshot taken from the given ticket row. -/
def signToken (pl : TokenPayload) (t : Ticket) : TokenPayload :=
  { ticketId := pl.ticketId
    email := pl.email
    ticketType := pl.ticketType
    expireTime := pl.expireTime
    reservedPrizes := buildReservedPrizesFromTicket t }

/-- A structured route response: success flag, HTTP status, message, and
the payload of the reissued token when the response carries one. -/
structure RouteResponse where
  success : Bool
  status : Nat
  message : String
  token : Option TokenPayload
  deriving DecidableEq, Repr

/-- Hold window of the add-to-cart action (email.server.ts): 15 minutes. -/
def RESERVATION_WINDOW_MS_cart : Nat := 15 * 60 * 1000

/-- Hold window of the claim action (redeem.claim route): 2 hours. -/
def RESERVATION_WINDOW_MS_claim : Nat := 120 * 60 * 1000

/-- Session window set by the redeem-code action: 2 hours. -/
def REDEEM_SESSION_WINDOW_MS : Nat := 120 * 60 * 1000

/-- The add-to-cart SelectPrize action (email.server.ts): verify the token,
sweep expired reservations, load the ticket, check email binding, the
used flag, whether any unexpired reservation on the prize exists, whether
the prize was sold, then reserve the prize for 15 minutes.  Recoverable
failures reissue a token; success returns none. -/
def addToCartAction (tokenOpt : Option Token) (variantIdOpt : Option String)
    (s : Store) (now : Nat) : RouteResponse × Store :=
  match tokenOpt with
  | none => (⟨false, 400, "Token is required.", none⟩, s)
  | some tok =>
    match variantIdOpt with
    | none => (⟨false, 400, "Prize ID is required.", none⟩, s)
    | some prizeId =>
      if prizeId = "" then (⟨false, 400, "Prize ID is required.", none⟩, s)
      else
        match jwtVerify tok now with
        | none => (⟨false, 401, "Invalid token.", none⟩, s)
        | some payload =>
          if payload.ticketId = "" ∨ payload.email = "" then
            (⟨false, 401, "Invalid or expired token.", none⟩, s)
          else
            let s1 := sweepExpired s now
            match findById s1 payload.ticketId with
            | none => (⟨false, 404, "Ticket not found.", none⟩, s1)
            | some ticket =>
              if ticket.email ≠ some payload.email then
                (⟨false, 403, "Ticket and email do not match.",
                  some (signToken payload ticket)⟩, s1)
              else if ticket.usedAt.isSome || truthy ticket.usedOrderId then
                (⟨false, 400, "This ticket has already been used.",
                  some (signToken payload ticket)⟩, s1)
              else if (s1.find? fun t =>
                  t.reservedPrizeId == some prizeId &&
                  gtNow t.reservationExpiresAt now).isSome then
                (⟨false, 400, "This product is already in a cart.",
                  some (signToken payload ticket)⟩, s1)
              else if (s1.find? fun t =>
                  t.reservedPrizeId == some prizeId && t.usedAt.isSome).isSome then
                (⟨false, 400, "This product has already been sold.",
                  some (signToken payload ticket)⟩, s1)
              else
                (⟨true, 200, "Successfully added to cart.", none⟩,
                 updateTicket s1 payload.ticketId fun t =>
                   { t with reservedPrizeId := some prizeId,
                            reservationExpiresAt := some (now + RESERVATION_WINDOW_MS_cart) })

/-- The claim SelectPrize action (redeem.claim route): verify the token,
load the ticket, check email binding and the used flag, reject when the
row itself carries an unexpired reservation, then reserve the prize for 2
hours.  No response of this action carries a token. -/
def claimAction (tokenOpt : Option Token) (prizeIdOpt : Option String)
    (s : Store) (now : Nat) : RouteResponse × Store :=
  match tokenOpt with
  | none => (⟨false, 400, "Token is required.", none⟩, s)
  | some tok =>
    match prizeIdOpt with
    | none => (⟨false, 400, "Prize ID is required.", none⟩, s)
    | some prizeId =>
      if prizeId = "" then (⟨false, 400, "Prize ID is required.", none⟩, s)
      else
        match jwtVerify tok now with
        | none => (⟨false, 401, "Invalid or expired token.", none⟩, s)
        | some payload =>
          if payload.ticketId = "" ∨ payload.email = "" then
            (⟨false, 401, "Invalid token payload.", none⟩, s)
          else
            match findById s payload.ticketId with
            | none => (⟨false, 404, "Ticket not found.", none⟩, s)
            | some ticket =>
              if ticket.email ≠ some payload.email then
                (⟨false, 403, "Ticket and email do not match.", none⟩, s)
              else if ticket.usedAt.isSome || truthy ticket.usedOrderId then
                (⟨false, 400, "This ticket has already been used.", none⟩, s)
              else if truthy ticket.reservedPrizeId &&
                  gtNow ticket.reservationExpiresAt now then
                (⟨false, 400, "This product is already in cart or reserved.", none⟩, s)
              else
                (⟨true, 200, "Successfully added to cart.", none⟩,
                 updateTicket s payload.ticketId fun t =>
                   { t with reservedPrizeId := some prizeId,
                            reservationExpiresAt := some (now + RESERVATION_WINDOW_MS_claim) })

/-- The release-reservation action: verify the token, load the ticket by
the id carried in the token (the email binding is not checked), clear the
reservation only when the currently reserved prize equals the given one,
and answer success with a reissued token in every validated case. -/
def releaseAction (tokenOpt : Option Token) (variantIdOpt : Option String)
    (s : Store) (now : Nat) : RouteResponse × Store :=
  match tokenOpt with
  | none => (⟨false, 400, "Token is required.", none⟩, s)
  | some tok =>
    match variantIdOpt with
    | none => (⟨false, 400, "Variant ID (prize) is required.", none⟩, s)
    | some prizeId =>
      if prizeId = "" then (⟨false, 400, "Variant ID (prize) is required.", none⟩, s)
      else
        match jwtVerify tok now with
        | none => (⟨false, 401, "Invalid token.", none⟩, s)
        | some payload =>
          if payload.ticketId = "" then
            (⟨false, 401, "Invalid or expired token.", none⟩, s)
          else
            match findById s payload.ticketId with
            | none => (⟨false, 404, "Ticket not found.", none⟩, s)
            | some ticket =>
              if ticket.reservedPrizeId = some prizeId then
                (⟨true, 200, "Reservation released.",
                  some (signToken payload
                    { ticket with reservedPrizeId := none, reservationExpiresAt := none })⟩,
                 updateTicket s payload.ticketId fun t =>
                   { t with reservedPrizeId := none, reservationExpiresAt := none })
              else
                (⟨true, 200, "Reservation released.", some (signToken payload ticket)⟩, s)

/-- The logout action: verify the token, load the ticket by the id carried
in the token (the email binding is not checked), then clear the email
binding, the session window, and the reservation.  The used columns are
not touched. -/
def logoutAction (tokenOpt : Option Token) (s : Store) (now : Nat) :
    RouteResponse × Store :=
  match tokenOpt with
  | none => (⟨false, 400, "Token is required.", none⟩, s)
  | some tok =>
    match jwtVerify tok now with
    | none => (⟨false, 403, "Invalid or expired token.", none⟩, s)
    | some payload =>
      if payload.ticketId = "" then
        (⟨false, 403, "Invalid or expired token.", none⟩, s)
      else
        match findById s payload.ticketId with
        | none => (⟨false, 403, "Invalid or expired token.", none⟩, s)
        | some _ =>
          (⟨true, 200, "Logged out.", none⟩,
           updateTicket s payload.ticketId fun t =>
             { t with email := none, expiresAt := none,
                      reservedPrizeId := none, reservationExpiresAt := none })

/-- The single-prize pre-checkout conflict check: verify the token, load
the ticket, check email binding, then report whether another ticket holds
an unexpired reservation on the given prize.  Every verification failure
yields one uniform 403 response. -/
def precheckoutVariantAction (tokenOpt : Option Token)
    (prizeVariantIdOpt : Option String) (s : Store) (now : Nat) :
    RouteResponse × Store :=
  match tokenOpt with
  | none => (⟨false, 400, "Token is required.", none⟩, s)
  | some tok =>
    match jwtVerify tok now with
    | none => (⟨false, 403, "Invalid or expired token.", none⟩, s)
    | some payload =>
      if payload.ticketId = "" ∨ payload.email = "" then
        (⟨false, 403, "Invalid or expired token.", none⟩, s)
      else
        match findById s payload.ticketId with
        | none => (⟨false, 403, "Invalid or expired token.", none⟩, s)
        | some ticket =>
          if ticket.email ≠ some payload.email then
            (⟨false, 403, "Invalid or expired token.", none⟩, s)
          else
            match prizeVariantIdOpt with
            | none => (⟨true, 200, "", some (signToken payload ticket)⟩, s)
            | some pid =>
              if pid = "" then (⟨true, 200, "", some (signToken payload ticket)⟩, s)
              else if (s.find? fun t =>
                  t.reservedPrizeId == some pid &&
                  gtNow t.reservationExpiresAt now &&
                  t.id != payload.ticketId).isSome then
                (⟨false, 200,
                  "A prize in your cart is already in another customer\x27s pending checkout.",
                  some (signToken payload ticket)⟩, s)
              else (⟨true, 200, "", some (signToken payload ticket)⟩, s)

/-- Response of the redeem-code action: success flag, HTTP status,
message.  The issued redemption token repeats fields written to the store,
so the theorems inspect the store. -/
structure RedeemResponse where
  success : Bool
  status : Nat
  message : String
  deriving DecidableEq, Repr

/-- The redeem-code action (redeem route): after the app-proxy signature
check, look up the ticket by code; only status ACTIVE may enter; on
success, inside one transaction, set status RESERVED, bind the email, set
a fresh verification key and a 2-hour session window.  The freshly drawn
random key is passed in as verifyKeyFresh. -/
def redeemAction (sigOk : Bool) (code email : String) (verifyKeyFresh : String)
    (s : Store) (now : Nat) : RedeemResponse × Store :=
  if !sigOk then (⟨false, 403, "Invalid signature"⟩, s)
  else if code = "" then (⟨false, 400, "Ticket code is required."⟩, s)
  else if email = "" then (⟨false, 400, "Email is required."⟩, s)
  else
    match findByCode s code with
    | none => (⟨false, 400, "Invalid ticket code."⟩, s)
    | some ticket =>
      if ticket.status ≠ "ACTIVE" then
        (⟨false, 400, "This ticket has already been used or reserved."⟩, s)
      else
        (⟨true, 200, "Ticket is valid, please select a prize."⟩,
         updateTicket s ticket.id fun t =>
           { t with status := "RESERVED",
                    expiresAt := some (now + REDEEM_SESSION_WINDOW_MS),
                    email := some email,
                    verifyKey := some verifyKeyFresh })

/-- A token verification failure of any of the three kinds the codec can
meet: a signature that does not match the secret, a malformed token, or a
well-formed token past its expiry instant. -/
def verifyFails (tok : Token) (now : Nat) : Prop :=
  tok = Token.badSignature ∨ tok = Token.malformed ∨
  ∃ p e, tok = Token.valid p e ∧ e ≤ now

/-- The redemption columns of every row: id together with usedAt and
usedOrderId.  An operation preserves redemption when it leaves this view of
the store unchanged. -/
def usedView (s : Store) : List (String × Option Nat × Option String) :=
  s.map fun t => (t.id, t.usedAt, t.usedOrderId)

/-- Concrete fixture: a session token for the given ticket id and email,
well signed and far from expiry. -/
def tokenFor (tid mail : String) : Token :=
  Token.valid
    { ticketId := tid
      email := mail
      ticketType := none
      expireTime := none
      reservedPrizes := [] } 1000000

/-- Concrete fixture: ticket t1, bound to a@x.com, holding prize P with an
unexpired reservation at instant 1000. -/
def holderTicket : Ticket :=
  { id := "t1"
    code := "CODE1"
    type := "Golden"
    status := "RESERVED"
    email := some "a@x.com"
    usedAt := none
    usedOrderId := none
    reservedPrizeId := some "P"
    reservationExpiresAt := some 2000
    expiresAt := none
    verifyKey := none }

/-- Concrete fixture: ticket t2, bound to b@x.com, with no reservation. -/
def freeTicket : Ticket :=
  { id := "t2"
    code := "CODE2"
    type := "Golden"
    status := "RESERVED"
    email := some "b@x.com"
    usedAt := none
    usedOrderId := none
    reservedPrizeId := none
    reservationExpiresAt := none
    expiresAt := none
    verifyKey := none }

/-- Concrete fixture: ticket t1 redeemed against prize P: usedAt set and
the prize link still recorded. -/
def usedTicket : Ticket :=
  { holderTicket with usedAt := some 500, reservationExpiresAt := none }

/-- Concrete fixture: ticket t1 redeemed against prize P with the
reservation deadline 500 still stored, so the expired-reservation sweep
severs the prize link at instant 1000. -/
def usedSweptTicket : Ticket :=
  { holderTicket with usedAt := some 500, reservationExpiresAt := some 500 }

/-- Concrete fixture: ticket t1 holding prize Q with an unexpired
reservation at instant 1000. -/
def otherHolder : Ticket := { holderTicket with reservedPrizeId := some "Q" }

/-- Concrete fixture: ticket t1 whose reservation of prize P expired at
instant 500. -/
def expiredHolder : Ticket := { holderTicket with reservationExpiresAt := some 500 }

/-- Concrete fixture: an imported, still unused ticket (status ACTIVE). -/
def activeTicket : Ticket :=
  { id := "t4"
    code := "CODE4"
    type := "Golden"
    status := "ACTIVE"
    email := none
    usedAt := none
    usedOrderId := none
    reservedPrizeId := none
    reservationExpiresAt := none
    expiresAt := none
    verifyKey := none }

/-- Concrete fixture: a ticket in the not-yet-customer-facing import state
ACTIVATE. -/
def pendingTicket : Ticket :=
  { id := "t3"
    code := "CODE3"
    type := "Golden"
    status := "ACTIVATE"
    email := none
    usedAt := none
    usedOrderId := none
    reservedPrizeId := none
    reservationExpiresAt := none
    expiresAt := none
    verifyKey := none }

/-- Claim C1: the claim-route SelectPrize evaluated at the failing input:
ticket t1 holds prize P with an unexpired reservation at instant 1000, the
distinct ticket t2 calls SelectPrize(P), and the call succeeds — leaving
two tickets with unexpired holds on P instead of failing with the
already-held outcome. -/
theorem C1_claim_route_grants_second_hold :
    holderTicket.reservedPrizeId = some "P" ∧
    gtNow holderTicket.reservationExpiresAt 1000 = true ∧
    holderTicket.id ≠ freeTicket.id ∧
    (claimAction (some (tokenFor "t2" "b@x.com")) (some "P")
      [holderTicket, freeTicket] 1000).1.success = true ∧
    ((claimAction (some (tokenFor "t2" "b@x.com")) (some "P")
      [holderTicket, freeTicket] 1000).2.countP fun t =>
        t.reservedPrizeId == some "P" && gtNow t.reservationExpiresAt 1000) = 2 := by
  decide

/-- Claim C2 counterexample: ticket t1 carries a permanent redemption
record against prize P (usedAt set, reservedPrizeId = P), yet a claim-route
SelectPrize(P) by ticket t2 succeeds instead of failing with the
AlreadySold outcome; and even the add-to-cart call site succeeds when the
redeemed row also stores a past reservation deadline, because the
expired-reservation sweep severs the prize link before the sold check. -/
theorem C2_claim_route_ignores_sold_prize :
    usedTicket.usedAt.isSome = true ∧
    usedTicket.reservedPrizeId = some "P" ∧
    (claimAction (some (tokenFor "t2" "b@x.com")) (some "P")
      [usedTicket, freeTicket] 1000).1.success = true ∧
    (findById (claimAction (some (tokenFor "t2" "b@x.com")) (some "P")
      [usedTicket, freeTicket] 1000).2 "t2").map Ticket.reservedPrizeId =
      some (some "P") ∧
    usedSweptTicket.usedAt.isSome = true ∧
    usedSweptTicket.reservedPrizeId = some "P" ∧
    (addToCartAction (some (tokenFor "t2" "b@x.com")) (some "P")
      [usedSweptTicket, freeTicket] 1000).1.success = true := by
  decide

/-- Claim C3 counterexample: ticket t1 holds prize Q with an unexpired
reservation, calls the add-to-cart SelectPrize for the different prize P,
and the call succeeds, silently replacing the old hold instead of being
rejected. -/
theorem C3_cart_route_replaces_hold :
    otherHolder.reservedPrizeId = some "Q" ∧
    gtNow otherHolder.reservationExpiresAt 1000 = true ∧
    (addToCartAction (some (tokenFor "t1" "a@x.com")) (some "P")
      [otherHolder] 1000).1.success = true ∧
    (addToCartAction (some (tokenFor "t1" "a@x.com")) (some "P")
      [otherHolder] 1000).2 =
      [{ otherHolder with reservedPrizeId := some "P",
                          reservationExpiresAt := some 901000 }] := by
  decide

/-- Claim C5 counterexample: a ticket in the PendingActivation state (code
status ACTIVATE), existing and not redeemed, is rejected by RedeemCode
instead of being admitted like an Unused ticket. -/
theorem C5_pending_activation_rejected :
    pendingTicket.status = "ACTIVATE" ∧
    pendingTicket.usedAt = none ∧
    redeemAction true "CODE3" "c@x.com" "k0" [pendingTicket] 1000 =
      (⟨false, 400, "This ticket has already been used or reserved."⟩,
       [pendingTicket]) := by
  decide

/-- Claim C7 counterexample: releasing the prize P whose hold by ticket t1
has already expired does not leave the hold columns unchanged — the code
clears them, because the match is on the prize id alone with no expiry
test. -/
theorem C7_expired_matching_hold_cleared :
    expiredHolder.reservedPrizeId = some "P" ∧
    expiredHolder.reservationExpiresAt = some 500 ∧
    ltNow expiredHolder.reservationExpiresAt 1000 = true ∧
    (releaseAction (some (tokenFor "t1" "a@x.com")) (some "P")
      [expiredHolder] 1000).2 ≠ [expiredHolder] ∧
    (releaseAction (some (tokenFor "t1" "a@x.com")) (some "P")
      [expiredHolder] 1000).2 =
      [{ expiredHolder with reservedPrizeId := none,
                            reservationExpiresAt := none }] := by
  decide

/-- Claim C9 counterexample: a successful add-to-cart SelectPrize call
returns no reissued token at all. -/
theorem C9_success_returns_no_token :
    (addToCartAction (some (tokenFor "t2" "b@x.com")) (some "P")
      [freeTicket] 1000).1.success = true ∧
    (addToCartAction (some (tokenFor "t2" "b@x.com")) (some "P")
      [freeTicket] 1000).1.token = none := by
  decide

/-- Any of the three verification failures makes jwt.verify reject. -/
theorem jwtVerify_eq_none_of_verifyFails {tok : Token} {now : Nat}
    (h : verifyFails tok now) : jwtVerify tok now = none := by
  rcases h with h | h | ⟨p, e, h, hle⟩ <;> subst h
  · rfl
  · rfl
  · simp [jwtVerify, Nat.not_lt.mpr hle]

/-- Claim C8: token verification fails closed and uniformly — for every
token with a bad signature, a malformed payload, or a past expiry, the
claim route, the logout route, and the pre-checkout route each produce one
and the same Invalid response, so a caller cannot tell an expired token
from a forged one. -/
theorem C8_uniform_invalid (tok : Token) (now : Nat) (pid : String) (s : Store)
    (hfail : verifyFails tok now) (hpid : pid ≠ "") :
    claimAction (some tok) (some pid) s now =
      (⟨false, 401, "Invalid or expired token.", none⟩, s) ∧
    logoutAction (some tok) s now =
      (⟨false, 403, "Invalid or expired token.", none⟩, s) ∧
    precheckoutVariantAction (some tok) (some pid) s now =
      (⟨false, 403, "Invalid or expired token.", none⟩, s) := by
  have hnone := jwtVerify_eq_none_of_verifyFails hfail
  refine ⟨?_, ?_, ?_⟩
  · unfold claimAction
    dsimp only
    rw [if_neg hpid, hnone]
  · unfold logoutAction
    dsimp only
    rw [hnone]
  · unfold precheckoutVariantAction
    dsimp only
    rw [hnone]

/-- Witness for C8 at a concrete input: the malformed token is rejected by
all three routes with the fixed Invalid responses. -/
theorem C8_uniform_invalid_witness :
    claimAction (some Token.malformed) (some "P") [] 0 =
      (⟨false, 401, "Invalid or expired token.", none⟩, []) ∧
    logoutAction (some Token.malformed) [] 0 =
      (⟨false, 403, "Invalid or expired token.", none⟩, []) ∧
    precheckoutVariantAction (some Token.malformed) (some "P") [] 0 =
      (⟨false, 403, "Invalid or expired token.", none⟩, []) :=
  C8_uniform_invalid Token.malformed 0 "P" [] (Or.inr (Or.inl rfl)) (by decide)

/-- A per-row mutation that keeps id, usedAt and usedOrderId leaves the
redemption view of the store unchanged. -/
theorem usedView_updateTicket (s : Store) (tid : String) (f : Ticket → Ticket)
    (h : ∀ u, (f u).id = u.id ∧ (f u).usedAt = u.usedAt ∧
      (f u).usedOrderId = u.usedOrderId) :
    usedView (updateTicket s tid f) = usedView s := by
  unfold usedView updateTicket
  rw [List.map_map]
  refine List.map_congr_left fun t _ => ?_
  by_cases ht : t.id = tid
  · simp [Function.comp, ht, (h t).1, (h t).2.1, (h t).2.2]
  · simp [Function.comp, ht]

/-- The expired-reservation sweep leaves the redemption view unchanged. -/
theorem usedView_sweepExpired (s : Store) (now : Nat) :
    usedView (sweepExpired s now) = usedView s := by
  unfold usedView sweepExpired
  rw [List.map_map]
  refine List.map_congr_left fun t _ => ?_
  by_cases ht : (t.status != "DISABLED" && ltNow t.reservationExpiresAt now) = true
  · simp [Function.comp, ht]
  · simp [Function.comp, ht]

/-- Claim C6: permanence of redemption — no operation of the core
(either SelectPrize call site, release, logout, or the expired-reservation
sweep) changes the usedAt or usedOrderId column of any ticket. -/
theorem C6_redemption_permanent (tokenOpt : Option Token)
    (pidOpt : Option String) (s : Store) (now : Nat) :
    usedView (addToCartAction tokenOpt pidOpt s now).2 = usedView s ∧
    usedView (claimAction tokenOpt pidOpt s now).2 = usedView s ∧
    usedView (releaseAction tokenOpt pidOpt s now).2 = usedView s ∧
    usedView (logoutAction tokenOpt s now).2 = usedView s ∧
    usedView (sweepExpired s now) = usedView s := by
  refine ⟨?_, ?_, ?_, ?_, usedView_sweepExpired s now⟩
  · unfold addToCartAction
    split
    · rfl
    split
    · rfl
    split
    · rfl
    split
    · rfl
    split
    · rfl
    dsimp only
    split
    · exact usedView_sweepExpired s now
    split
    · exact usedView_sweepExpired s now
    split
    · exact usedView_sweepExpired s now
    split
    · exact usedView_sweepExpired s now
    split
    · exact usedView_sweepExpired s now
    dsimp only
    refine Eq.trans (usedView_updateTicket _ _ _ fun u => ?_)
      (usedView_sweepExpired s now)
    exact ⟨rfl, rfl, rfl⟩
  · unfold claimAction
    split
    · rfl
    split
    · rfl
    split
    · rfl
    split
    · rfl
    split
    · rfl
    split
    · rfl
    split
    · rfl
    split
    · rfl
    split
    · rfl
    refine usedView_updateTicket _ _ _ fun u => ?_
    exact ⟨rfl, rfl, rfl⟩
  · unfold releaseAction
    split
    · rfl
    split
    · rfl
    split
    · rfl
    split
    · rfl
    split
    · rfl
    split
    · rfl
    split
    · refine usedView_updateTicket _ _ _ fun u => ?_
      exact ⟨rfl, rfl, rfl⟩
    · rfl
  · unfold logoutAction
    split
    · rfl
    split
    · rfl
    split
    · rfl
    split
    · rfl
    refine usedView_updateTicket _ _ _ fun u => ?_
    exact ⟨rfl, rfl, rfl⟩

/-- Looking up the updated id after updateTicket returns the mutated row,
provided the mutation keeps the id. -/
theorem findById_updateTicket (s : Store) (tid : String) (f : Ticket → Ticket)
    (hpres : ∀ u, (f u).id = u.id) :
    findById (updateTicket s tid f) tid = (findById s tid).map f := by
  induction s with
  | nil => rfl
  | cons a l ih =>
    unfold findById updateTicket at *
    by_cases h : a.id = tid
    · simp [List.find?_cons, h, hpres a]
    · simp only [List.map_cons, if_neg h, List.find?_cons]
      have hb : (a.id == tid) = false := by
        simpa using h
      rw [hb]
      exact ih

/-- Claim C7 (amended): ReleaseHold with a verified token naming an
existing ticket always answers success; it clears the reservation columns
exactly when the stored reservedPrizeId equals the given prize id
(regardless of expiry) and otherwise leaves the store untouched; calling
it twice in a row answers success both times, the second call changes
nothing, and afterwards the ticket does not hold the given prize. -/
theorem C7_release_idempotent (tok : Token) (pid : String) (s : Store)
    (now : Nat) (pl : TokenPayload) (t : Ticket)
    (hv : jwtVerify tok now = some pl)
    (hid : pl.ticketId ≠ "")
    (hpid : pid ≠ "")
    (hf : findById s pl.ticketId = some t) :
    (releaseAction (some tok) (some pid) s now).1.success = true ∧
    (releaseAction (some tok) (some pid)
      (releaseAction (some tok) (some pid) s now).2 now).1.success = true ∧
    (releaseAction (some tok) (some pid)
      (releaseAction (some tok) (some pid) s now).2 now).2 =
      (releaseAction (some tok) (some pid) s now).2 ∧
    (t.reservedPrizeId = some pid →
      (releaseAction (some tok) (some pid) s now).2 =
        updateTicket s pl.ticketId fun u =>
          { u with reservedPrizeId := none, reservationExpiresAt := none }) ∧
    (t.reservedPrizeId ≠ some pid →
      (releaseAction (some tok) (some pid) s now).2 = s) := by
  have hstep : ∀ s2 : Store, ∀ t2 : Ticket, findById s2 pl.ticketId = some t2 →
      releaseAction (some tok) (some pid) s2 now =
        (if t2.reservedPrizeId = some pid then
          (⟨true, 200, "Reservation released.",
            some (signToken pl
              { t2 with reservedPrizeId := none, reservationExpiresAt := none })⟩,
           updateTicket s2 pl.ticketId fun u =>
             { u with reservedPrizeId := none, reservationExpiresAt := none })
        else
          (⟨true, 200, "Reservation released.", some (signToken pl t2)⟩, s2)) := by
    intro s2 t2 hf2
    unfold releaseAction
    dsimp only
    rw [if_neg hpid, hv]
    dsimp only
    rw [if_neg hid, hf2]
  by_cases hm : t.reservedPrizeId = some pid
  · have h1 := hstep s t hf
    rw [if_pos hm] at h1
    have hf1 : findById (releaseAction (some tok) (some pid) s now).2 pl.ticketId =
        some { t with reservedPrizeId := none, reservationExpiresAt := none } := by
      rw [h1]
      dsimp only
      rw [findById_updateTicket s pl.ticketId
        (fun u => { u with reservedPrizeId := none, reservationExpiresAt := none })
        (fun u => rfl), hf]
      rfl
    have h2 := hstep _ _ hf1
    rw [if_neg (by simp)] at h2
    refine ⟨by rw [h1], by rw [h2], by rw [h2], fun _ => by rw [h1], fun hc => absurd hm hc⟩
  · have h1 := hstep s t hf
    rw [if_neg hm] at h1
    have hf1 : findById (releaseAction (some tok) (some pid) s now).2 pl.ticketId =
        some t := by
      rw [h1]
      exact hf
    have h2 := hstep _ _ hf1
    rw [if_neg hm] at h2
    refine ⟨by rw [h1], ?_, ?_, fun hc => absurd hc hm, fun _ => by rw [h1]⟩
    · rw [h2]
    · rw [h2]

/-- Witness for C7 at a concrete input: ticket t1 holds prize P; releasing
P twice succeeds both times, clears the hold, and the second call is a
no-op. -/
theorem C7_release_idempotent_witness :
    (releaseAction (some (tokenFor "t1" "a@x.com")) (some "P")
      [holderTicket] 1000).1.success = true ∧
    (releaseAction (some (tokenFor "t1" "a@x.com")) (some "P")
      (releaseAction (some (tokenFor "t1" "a@x.com")) (some "P")
        [holderTicket] 1000).2 1000).1.success = true ∧
    (releaseAction (some (tokenFor "t1" "a@x.com")) (some "P")
      (releaseAction (some (tokenFor "t1" "a@x.com")) (some "P")
        [holderTicket] 1000).2 1000).2 =
      (releaseAction (some (tokenFor "t1" "a@x.com")) (some "P")
        [holderTicket] 1000).2 ∧
    (holderTicket.reservedPrizeId = some "P" →
      (releaseAction (some (tokenFor "t1" "a@x.com")) (some "P")
        [holderTicket] 1000).2 =
        updateTicket [holderTicket] "t1" fun u =>
          { u with reservedPrizeId := none, reservationExpiresAt := none }) ∧
    (holderTicket.reservedPrizeId ≠ some "P" →
      (releaseAction (some (tokenFor "t1" "a@x.com")) (some "P")
        [holderTicket] 1000).2 = [holderTicket]) :=
  C7_release_idempotent (tokenFor "t1" "a@x.com") "P" [holderTicket] 1000
    { ticketId := "t1"
      email := "a@x.com"
      ticketType := none
      expireTime := none
      reservedPrizes := [] }
    holderTicket (by decide) (by decide) (by decide) (by decide)

/-- Claim C10: ReleaseHold and Logout authenticate only by ticket
identity — for a validly signed token whose ticketId names an existing
ticket, both succeed and mutate that ticket even when the email carried in
the token differs from the email currently bound to the ticket. -/
theorem C10_release_logout_ignore_email (tok : Token) (pid : String)
    (s : Store) (now : Nat) (pl : TokenPayload) (t : Ticket)
    (hv : jwtVerify tok now = some pl)
    (hid : pl.ticketId ≠ "")
    (hpid : pid ≠ "")
    (hf : findById s pl.ticketId = some t)
    (hmail : t.email ≠ some pl.email) :
    (releaseAction (some tok) (some pid) s now).1.success = true ∧
    (t.reservedPrizeId = some pid →
      (releaseAction (some tok) (some pid) s now).2 =
        updateTicket s pl.ticketId fun u =>
          { u with reservedPrizeId := none, reservationExpiresAt := none }) ∧
    (logoutAction (some tok) s now).1.success = true ∧
    (logoutAction (some tok) s now).2 =
      updateTicket s pl.ticketId fun u =>
        { u with email := none, expiresAt := none,
                 reservedPrizeId := none, reservationExpiresAt := none } := by
  have hrel : releaseAction (some tok) (some pid) s now =
      (if t.reservedPrizeId = some pid then
        (⟨true, 200, "Reservation released.",
          some (signToken pl
            { t with reservedPrizeId := none, reservationExpiresAt := none })⟩,
         updateTicket s pl.ticketId fun u =>
           { u with reservedPrizeId := none, reservationExpiresAt := none })
      else
        (⟨true, 200, "Reservation released.", some (signToken pl t)⟩, s)) := by
    unfold releaseAction
    dsimp only
    rw [if_neg hpid, hv]
    dsimp only
    rw [if_neg hid, hf]
  have hlog : logoutAction (some tok) s now =
      (⟨true, 200, "Logged out.", none⟩,
       updateTicket s pl.ticketId fun u =>
         { u with email := none, expiresAt := none,
                  reservedPrizeId := none, reservationExpiresAt := none }) := by
    unfold logoutAction
    dsimp only
    rw [hv]
    dsimp only
    rw [if_neg hid, hf]
  refine ⟨?_, ?_, by rw [hlog], by rw [hlog]⟩
  · rw [hrel]
    by_cases hm : t.reservedPrizeId = some pid
    · rw [if_pos hm]
    · rw [if_neg hm]
  · intro hm
    rw [hrel, if_pos hm]

/-- Witness for C10 at a concrete input: a stale token for ticket t1
carrying the email old@x.com, while the ticket is bound to a@x.com, still
releases the held prize P and still logs the ticket out. -/
theorem C10_release_logout_ignore_email_witness :
    (releaseAction (some (tokenFor "t1" "old@x.com")) (some "P")
      [holderTicket] 1000).1.success = true ∧
    (holderTicket.reservedPrizeId = some "P" →
      (releaseAction (some (tokenFor "t1" "old@x.com")) (some "P")
        [holderTicket] 1000).2 =
        updateTicket [holderTicket] "t1" fun u =>
          { u with reservedPrizeId := none, reservationExpiresAt := none }) ∧
    (logoutAction (some (tokenFor "t1" "old@x.com")) [holderTicket] 1000).1.success = true ∧
    (logoutAction (some (tokenFor "t1" "old@x.com")) [holderTicket] 1000).2 =
      updateTicket [holderTicket] "t1" fun u =>
        { u with email := none, expiresAt := none,
                 reservedPrizeId := none, reservationExpiresAt := none } :=
  C10_release_logout_ignore_email (tokenFor "t1" "old@x.com") "P"
    [holderTicket] 1000
    { ticketId := "t1"
      email := "old@x.com"
      ticketType := none
      expireTime := none
      reservedPrizes := [] }
    holderTicket (by decide) (by decide) (by decide) (by decide) (by decide)

/-- Claim C5 (amended): RedeemCode admits exactly the tickets whose stored
status is ACTIVE (the Unused state): for such a ticket it succeeds and, in
one transaction, binds the email, sets status RESERVED, stores the freshly
drawn verification key, and sets a 2-hour session window; for a ticket in
any other status — ACTIVATE (PendingActivation), RESERVED, DISABLED — it
fails with the already-used message, and for an unknown code it fails with
the invalid-code message. -/
theorem C5_redeem_code_entry (code mail key : String) (s : Store) (now : Nat)
    (hcode : code ≠ "") (hmail : mail ≠ "") :
    (findByCode s code = none →
      redeemAction true code mail key s now =
        (⟨false, 400, "Invalid ticket code."⟩, s)) ∧
    (∀ t, findByCode s code = some t → t.status ≠ "ACTIVE" →
      redeemAction true code mail key s now =
        (⟨false, 400, "This ticket has already been used or reserved."⟩, s)) ∧
    (∀ t, findByCode s code = some t → t.status = "ACTIVE" →
      redeemAction true code mail key s now =
        (⟨true, 200, "Ticket is valid, please select a prize."⟩,
         updateTicket s t.id fun u =>
           { u with status := "RESERVED",
                    expiresAt := some (now + REDEEM_SESSION_WINDOW_MS),
                    email := some mail,
                    verifyKey := some key })) := by
  refine ⟨fun hn => ?_, fun t ht hs => ?_, fun t ht hs => ?_⟩
  · unfold redeemAction
    rw [if_neg hcode, if_neg hmail, hn]
    rfl
  · unfold redeemAction
    rw [if_neg hcode, if_neg hmail, ht]
    dsimp only
    rw [if_pos hs]
    rfl
  · unfold redeemAction
    rw [if_neg hcode, if_neg hmail, ht]
    dsimp only
    have hcond : ¬(t.status ≠ "ACTIVE") := fun hc => hc hs
    rw [if_neg hcond]
    rfl

/-- Witness for C5 at concrete inputs: an ACTIVE ticket is admitted and
mutated as stated, and an ACTIVATE ticket is rejected. -/
theorem C5_redeem_code_entry_witness :
    redeemAction true "CODE4" "c@x.com" "k0" [activeTicket] 1000 =
      (⟨true, 200, "Ticket is valid, please select a prize."⟩,
       updateTicket [activeTicket] "t4" fun u =>
         { u with status := "RESERVED",
                  expiresAt := some (1000 + REDEEM_SESSION_WINDOW_MS),
                  email := some "c@x.com",
                  verifyKey := some "k0" }) ∧
    redeemAction true "CODE3" "c@x.com" "k0" [pendingTicket] 1000 =
      (⟨false, 400, "This ticket has already been used or reserved."⟩,
       [pendingTicket]) :=
  ⟨(C5_redeem_code_entry "CODE4" "c@x.com" "k0" [activeTicket] 1000
      (by decide) (by decide)).2.2 activeTicket (by decide) (by decide),
   (C5_redeem_code_entry "CODE3" "c@x.com" "k0" [pendingTicket] 1000
      (by decide) (by decide)).2.1 pendingTicket (by decide) (by decide)⟩

/-- Claim C3 (amended): at the claim call site, a ticket that currently
carries an unexpired reservation has every new SelectPrize rejected with
the already-in-cart outcome and the store — hence the stored hold — left
unchanged; at the add-to-cart call site the new selection instead replaces
the existing hold when the target prize is otherwise free. -/
theorem C3_claim_route_rejects_while_holding (tok : Token) (pid : String)
    (s : Store) (now : Nat) (pl : TokenPayload) (t : Ticket)
    (hv : jwtVerify tok now = some pl)
    (hid : pl.ticketId ≠ "")
    (hem : pl.email ≠ "")
    (hpid : pid ≠ "")
    (hf : findById s pl.ticketId = some t)
    (hmail : t.email = some pl.email)
    (hused : t.usedAt = none)
    (hord : truthy t.usedOrderId = false)
    (hheld : truthy t.reservedPrizeId = true)
    (hunexp : gtNow t.reservationExpiresAt now = true) :
    claimAction (some tok) (some pid) s now =
      (⟨false, 400, "This product is already in cart or reserved.", none⟩, s) := by
  unfold claimAction
  dsimp only
  rw [if_neg hpid, hv]
  dsimp only
  rw [if_neg (by simp [hid, hem]), hf]
  dsimp only
  rw [if_neg (by simp [hmail]), if_neg (by simp [hused, hord]),
    if_pos (by simp [hheld, hunexp])]

/-- Witness for C3 at a concrete input: ticket t1 holds prize Q unexpired
and its claim-route SelectPrize(P) is rejected with the store unchanged. -/
theorem C3_claim_route_rejects_while_holding_witness :
    claimAction (some (tokenFor "t1" "a@x.com")) (some "P") [otherHolder] 1000 =
      (⟨false, 400, "This product is already in cart or reserved.", none⟩,
       [otherHolder]) :=
  C3_claim_route_rejects_while_holding (tokenFor "t1" "a@x.com") "P"
    [otherHolder] 1000
    { ticketId := "t1"
      email := "a@x.com"
      ticketType := none
      expireTime := none
      reservedPrizes := [] }
    otherHolder (by decide) (by decide) (by decide) (by decide) (by decide)
    (by decide) (by decide) (by decide) (by decide) (by decide)

/-- Claim C4: lazy expiry — when ticket t1 holds the prize with a
reservation deadline strictly in the past, the add-to-cart SelectPrize for
that prize by a different, validly identified ticket succeeds with no
intervening operation (given no other blocking condition: no other ticket
references the prize and the caller passes the identity and used checks),
and the caller is granted the hold. -/
theorem C4_expired_hold_is_no_hold (tok : Token) (pid : String) (s : Store)
    (now : Nat) (pl : TokenPayload) (tc t1 : Ticket) (e1 : Nat)
    (hv : jwtVerify tok now = some pl)
    (hid : pl.ticketId ≠ "")
    (hem : pl.email ≠ "")
    (hpid : pid ≠ "")
    (hfc : findById (sweepExpired s now) pl.ticketId = some tc)
    (hcmail : tc.email = some pl.email)
    (hcused : tc.usedAt = none)
    (hcord : truthy tc.usedOrderId = false)
    (h1mem : t1 ∈ s)
    (h1other : t1.id ≠ pl.ticketId)
    (h1p : t1.reservedPrizeId = some pid)
    (h1e : t1.reservationExpiresAt = some e1)
    (h1exp : e1 < now)
    (h1status : t1.status ≠ "DISABLED")
    (hothers : ∀ t ∈ s, t ≠ t1 → t.reservedPrizeId ≠ some pid) :
    addToCartAction (some tok) (some pid) s now =
      (⟨true, 200, "Successfully added to cart.", none⟩,
       updateTicket (sweepExpired s now) pl.ticketId fun u =>
         { u with reservedPrizeId := some pid,
                  reservationExpiresAt := some (now + RESERVATION_WINDOW_MS_cart) }) := by
  have hnopid : ∀ u ∈ sweepExpired s now, u.reservedPrizeId ≠ some pid := by
    intro u hu
    rw [sweepExpired, List.mem_map] at hu
    obtain ⟨t, hts, rfl⟩ := hu
    by_cases hteq : t = t1
    · subst hteq
      have hcond : (t.status != "DISABLED" && ltNow t.reservationExpiresAt now) = true := by
        rw [h1e]
        simp [ltNow, h1exp, h1status]
      rw [if_pos hcond]
      simp
    · by_cases hcond : (t.status != "DISABLED" && ltNow t.reservationExpiresAt now) = true
      · rw [if_pos hcond]
        simp
      · rw [if_neg hcond]
        exact hothers t hts hteq
  have hfind1 : ((sweepExpired s now).find? fun t =>
      t.reservedPrizeId == some pid && gtNow t.reservationExpiresAt now) = none := by
    rw [List.find?_eq_none]
    intro u hu
    simp [hnopid u hu]
  have hfind2 : ((sweepExpired s now).find? fun t =>
      t.reservedPrizeId == some pid && t.usedAt.isSome) = none := by
    rw [List.find?_eq_none]
    intro u hu
    simp [hnopid u hu]
  unfold addToCartAction
  try dsimp only
  rw [if_neg hpid, hv]
  try dsimp only
  rw [if_neg (by simp [hid, hem])]
  try dsimp only
  rw [hfc]
  try dsimp only
  rw [if_neg (by simp [hcmail]), if_neg (by simp [hcused, hcord]), hfind1, hfind2]
  rfl

/-- Witness for C4 at a concrete input: ticket t1 holds prize P but its
deadline 500 lies before the instant 1000, so the add-to-cart SelectPrize
by ticket t2 succeeds and t2 is granted the hold. -/
theorem C4_expired_hold_is_no_hold_witness :
    addToCartAction (some (tokenFor "t2" "b@x.com")) (some "P")
      [expiredHolder, freeTicket] 1000 =
      (⟨true, 200, "Successfully added to cart.", none⟩,
       updateTicket (sweepExpired [expiredHolder, freeTicket] 1000) "t2" fun u =>
         { u with reservedPrizeId := some "P",
                  reservationExpiresAt := some (1000 + RESERVATION_WINDOW_MS_cart) }) :=
  C4_expired_hold_is_no_hold (tokenFor "t2" "b@x.com") "P"
    [expiredHolder, freeTicket] 1000
    { ticketId := "t2"
      email := "b@x.com"
      ticketType := none
      expireTime := none
      reservedPrizes := [] }
    freeTicket expiredHolder 500
    (by decide) (by decide) (by decide) (by decide) (by decide) (by decide)
    (by decide) (by decide) (by decide) (by decide) (by decide) (by decide)
    (by decide) (by decide) (by decide)

/-- Claim C2 (amended): at the add-to-cart call site only — when, after the
expired-reservation sweep, some ticket row still links the prize to a set
usedAt, a SelectPrize for that prize by a validly identified caller that
passes the identity, used and no-unexpired-reservation checks fails with
the AlreadySold outcome and the store is left as the sweep produced it. -/
theorem C2_cart_route_rejects_sold_prize (tok : Token) (pid : String)
    (s : Store) (now : Nat) (pl : TokenPayload) (tc ts : Ticket)
    (hv : jwtVerify tok now = some pl)
    (hid : pl.ticketId ≠ "")
    (hem : pl.email ≠ "")
    (hpid : pid ≠ "")
    (hfc : findById (sweepExpired s now) pl.ticketId = some tc)
    (hcmail : tc.email = some pl.email)
    (hcused : tc.usedAt = none)
    (hcord : truthy tc.usedOrderId = false)
    (hnocart : ((sweepExpired s now).find? fun t =>
      t.reservedPrizeId == some pid && gtNow t.reservationExpiresAt now) = none)
    (hts : ts ∈ sweepExpired s now)
    (hsp : ts.reservedPrizeId = some pid)
    (hsu : ts.usedAt.isSome = true) :
    addToCartAction (some tok) (some pid) s now =
      (⟨false, 400, "This product has already been sold.",
        some (signToken pl tc)⟩, sweepExpired s now) := by
  have hnotnone : ((sweepExpired s now).find? fun t =>
      t.reservedPrizeId == some pid && t.usedAt.isSome) ≠ none := by
    rw [Ne, List.find?_eq_none]
    intro hall
    have hp : (ts.reservedPrizeId == some pid && ts.usedAt.isSome) = true := by
      simp [hsp, hsu]
    exact hall ts hts hp
  have hsome : ((sweepExpired s now).find? fun t =>
      t.reservedPrizeId == some pid && t.usedAt.isSome).isSome = true :=
    Option.ne_none_iff_isSome.mp hnotnone
  unfold addToCartAction
  try dsimp only
  rw [if_neg hpid, hv]
  try dsimp only
  rw [if_neg (by simp [hid, hem])]
  try dsimp only
  rw [hfc]
  try dsimp only
  rw [if_neg (by simp [hcmail]), if_neg (by simp [hcused, hcord]), hnocart,
    if_pos hsome]
  rfl

/-- Witness for C2 at a concrete input: ticket t1 was redeemed against
prize P (usedAt set, prize link intact, no reservation deadline for the
sweep to clear), and the add-to-cart SelectPrize(P) by ticket t2 fails
with the AlreadySold outcome. -/
theorem C2_cart_route_rejects_sold_prize_witness :
    addToCartAction (some (tokenFor "t2" "b@x.com")) (some "P")
      [usedTicket, freeTicket] 1000 =
      (⟨false, 400, "This product has already been sold.",
        some (signToken
          { ticketId := "t2"
            email := "b@x.com"
            ticketType := none
            expireTime := none
            reservedPrizes := [] } freeTicket)⟩,
       sweepExpired [usedTicket, freeTicket] 1000) :=
  C2_cart_route_rejects_sold_prize (tokenFor "t2" "b@x.com") "P"
    [usedTicket, freeTicket] 1000
    { ticketId := "t2"
      email := "b@x.com"
      ticketType := none
      expireTime := none
      reservedPrizes := [] }
    freeTicket usedTicket
    (by decide) (by decide) (by decide) (by decide) (by decide) (by decide)
    (by decide) (by decide) (by decide) (by decide) (by decide) (by decide)

/-- Claim C9 (amended): at the add-to-cart call site the four
client-recoverable failures (email mismatch, already used, already in a
cart, already sold) each return a freshly reissued token, while a
successful call returns no token; the claim call site returns no token on
any outcome. -/
theorem C9_token_reissue_on_recoverable_failures (tokenOpt : Option Token)
    (pidOpt : Option String) (s : Store) (now : Nat) :
    ((addToCartAction tokenOpt pidOpt s now).1.success = true →
      (addToCartAction tokenOpt pidOpt s now).1.token = none) ∧
    ((addToCartAction tokenOpt pidOpt s now).1.message =
        "Ticket and email do not match." ∨
     (addToCartAction tokenOpt pidOpt s now).1.message =
        "This ticket has already been used." ∨
     (addToCartAction tokenOpt pidOpt s now).1.message =
        "This product is already in a cart." ∨
     (addToCartAction tokenOpt pidOpt s now).1.message =
        "This product has already been sold." →
      ((addToCartAction tokenOpt pidOpt s now).1.token).isSome = true) ∧
    (claimAction tokenOpt pidOpt s now).1.token = none := by
  refine ⟨?_, ?_, ?_⟩
  · unfold addToCartAction
    dsimp only
    repeat' split
    all_goals intro h
    all_goals first
      | rfl
      | simp at h
  · unfold addToCartAction
    dsimp only
    repeat' split
    all_goals intro h
    all_goals first
      | rfl
      | simp at h
  · unfold claimAction
    repeat' split
    all_goals rfl

/-- Witness for C9 at a concrete input: an add-to-cart SelectPrize failing
on email mismatch carries a reissued token. -/
theorem C9_token_reissue_witness :
    ((addToCartAction (some (tokenFor "t1" "z@x.com")) (some "P")
      [holderTicket] 1000).1.token).isSome = true :=
  (C9_token_reissue_on_recoverable_failures (some (tokenFor "t1" "z@x.com"))
    (some "P") [holderTicket] 1000).2.1 (Or.inl (by decide))

end PrizePop
